import Mathlib

/-!
Shallow embedding of the DataPad field-synchronization subsystem of the
glxy-gaming-platform backend (services/web-adobe-api), covering
`app/services/sync_service.py` (the sync orchestrator) and the retry loop of
`app/services/datapad_client.py` (the remote field client), together with the
schema types from `app/schemas/datapad.py` that they use.

Timestamps (`datetime.utcnow()`) are modelled by an explicit `now : Nat`
parameter; the remote DataPad service is modelled by an oracle mapping each
remote call to its outcome; the database session is modelled by an explicit
record of documents and field rows.
-/

namespace GlxySync

/-- Sync status enum from `app/schemas/datapad.py` (`SyncStatus`). -/
inductive SyncStatus
  | pending
  | syncing
  | synced
  | error
  | conflict
deriving DecidableEq, Repr

/-- Members of the `DataPadFieldType` enum in `app/schemas/datapad.py`. -/
def dataPadFieldTypes : List String :=
  ["text", "textarea", "number", "email", "phone", "date", "checkbox",
   "radio", "select", "signature", "file"]

/-- Local form-field row as used by `SyncService` (attributes read and written
by `sync_service.py`): id, parent form id, pdf name, optional display label,
optional group, type string, required flag, optional validation pattern,
optional DataPad field id (`remoteFieldId`), status string, updated timestamp. -/
structure FormField where
  id : Nat
  form_id : Nat
  pdf_name : String
  display_label : Option String
  group_name : Option String
  field_type : String
  required : Bool
  validation_pattern : Option String
  datapad_field_id : Option String
  status : String
  updated_at : Nat
deriving DecidableEq, Repr

/-- Python truthiness of an `Optional[str]`: `None` and `""` are falsy. -/
def pyTruthyStr : Option String → Bool
  | none => false
  | some s => !(s == "")

/-- Python truthiness of an `Optional[List[int]]`: `None` and `[]` are falsy. -/
def pyTruthyList : Option (List Nat) → Bool
  | none => false
  | some l => !l.isEmpty

/-- Python `a or b` on an `Optional[str]` left operand and `str` right operand. -/
def pyOrStr (a : Option String) (b : String) : String :=
  match a with
  | none => b
  | some s => if s == "" then b else s

/-- Metadata dict attached to create payloads in `_create_datapad_field`. -/
structure FieldMeta where
  pdf_name : String
  form_id : Nat
  field_id : Nat
deriving DecidableEq, Repr

/-- Schema `DataPadFieldCreate` (the parts populated by `_create_datapad_field`). -/
structure DataPadFieldCreate where
  label : String
  field_type : String
  group : Option String
  required : Bool
  validation_rules : Option (List (String × String))
  meta : Option FieldMeta
deriving DecidableEq, Repr

/-- Schema `DataPadFieldUpdate` (the parts populated by `_update_datapad_field`). -/
structure DataPadFieldUpdate where
  label : String
  field_type : String
  group : Option String
  required : Bool
  validation_rules : Option (List (String × String))
deriving DecidableEq, Repr

/-- Remote `DataPadField` representation (the parts the sync code consumes). -/
structure DataPadField where
  id : String
  label : String
  field_type : String
deriving DecidableEq, Repr

/-- The association dict literal of `_map_field_type` in `sync_service.py`. -/
def field_type_mapping : List (String × String) :=
  [("text", "text"), ("textarea", "textarea"), ("number", "number"),
   ("email", "email"), ("phone", "phone"), ("date", "date"),
   ("checkbox", "checkbox"), ("radio", "radio"), ("dropdown", "select"),
   ("signature", "signature"), ("file", "file")]

/-- Python `str.lower()`, modelled character-wise. -/
def py_lower (s : String) : String := ⟨s.data.map Char.toLower⟩

/-- `SyncService._map_field_type`: lower-case the input, look it up in the
mapping dict, default to `"text"`. -/
def map_field_type (pdf_field_type : String) : String :=
  (field_type_mapping.lookup (py_lower pdf_field_type)).getD "text"

/-- The `{"pattern": ...} if field.validation_pattern else None` expression. -/
def build_validation_rules (vp : Option String) : Option (List (String × String)) :=
  match vp with
  | none => none
  | some p => if p == "" then none else some [("pattern", p)]

/-- Payload built by `SyncService._create_datapad_field`. -/
def create_payload (field : FormField) : DataPadFieldCreate :=
  { label := pyOrStr field.display_label field.pdf_name
    field_type := map_field_type field.field_type
    group := field.group_name
    required := field.required
    validation_rules := build_validation_rules field.validation_pattern
    meta := some ⟨field.pdf_name, field.form_id, field.id⟩ }

/-- Payload built by `SyncService._update_datapad_field`. -/
def update_payload (field : FormField) : DataPadFieldUpdate :=
  { label := pyOrStr field.display_label field.pdf_name
    field_type := map_field_type field.field_type
    group := field.group_name
    required := field.required
    validation_rules := build_validation_rules field.validation_pattern }

/-- One remote call issued by the sync orchestrator through the DataPad client. -/
inductive RemoteCall
  | createField (payload : DataPadFieldCreate)
  | updateField (field_id : String) (payload : DataPadFieldUpdate)
deriving DecidableEq, Repr

/-- Whether a remote call is a `createField` call. -/
def RemoteCall.isCreate : RemoteCall → Bool
  | .createField _ => true
  | _ => false

/-- Whether a remote call is an `updateField` call. -/
def RemoteCall.isUpdateCall : RemoteCall → Bool
  | .updateField _ _ => true
  | _ => false

/-- Exceptions a DataPad client call can raise into `_sync_field`:
`DataPadNotFoundError`, any other `DataPadAPIError` subclass (carrying its
class name for the error message), or a non-API `Exception`. -/
inductive DataPadExc
  | notFound (message : String)
  | apiError (className : String) (message : String)
  | unexpected (message : String)
deriving DecidableEq, Repr

/-- Remote-service behaviour: the outcome of each possible remote call. -/
def RemoteOracle : Type := RemoteCall → Except DataPadExc DataPadField

/-- Schema `DataPadSyncResult`: per-field transient sync result. -/
structure DataPadSyncResult where
  field_id : Nat
  status : SyncStatus
  datapad_field_id : Option String := none
  error_message : Option String := none
  synced_at : Option Nat := none
deriving DecidableEq, Repr

/-- The remote call chosen by `_sync_field` after the skip check: update when
the field carries a (truthy) DataPad id, create otherwise. -/
def sync_call (field1 : FormField) : RemoteCall :=
  if pyTruthyStr field1.datapad_field_id then
    .updateField (field1.datapad_field_id.getD "") (update_payload field1)
  else
    .createField (create_payload field1)

/-- `SyncService._sync_field`, as state passing over the field row.  Returns
the persisted field row, the `DataPadSyncResult`, and the list of remote calls
issued for this field (in order).  The `fuel` argument bounds the
`conflict_resolution == "overwrite"` recursion of the source (in Python the
recursion is bounded only by the interpreter recursion limit, whose
`RecursionError` is caught by the `except Exception` clause and turned into an
error result; fuel 0 mirrors that). -/
def sync_field (remote : RemoteOracle) (now : Nat) :
    Nat → FormField → Bool → String → FormField × DataPadSyncResult × List RemoteCall
  | fuel, field, force, conflict_resolution =>
    if pyTruthyStr field.datapad_field_id && field.status == "synced" && !force then
      (field,
       { field_id := field.id, status := .synced,
         datapad_field_id := field.datapad_field_id },
       [])
    else
      let field1 : FormField := { field with status := "syncing", updated_at := now }
      let call : RemoteCall := sync_call field1
      match remote call with
      | .ok dp =>
          let field2 : FormField :=
            { field1 with datapad_field_id := some dp.id, status := "synced",
                          updated_at := now }
          (field2,
           { field_id := field.id, status := .synced,
             datapad_field_id := some dp.id, synced_at := some now },
           [call])
      | .error (.notFound msg) =>
          if conflict_resolution == "overwrite" then
            match fuel with
            | 0 =>
                let field2 : FormField :=
                  { field1 with datapad_field_id := none, status := "error" }
                (field2,
                 { field_id := field.id, status := .error,
                   error_message :=
                     some "Unexpected error: maximum recursion depth exceeded" },
                 [call])
            | Nat.succ fuel' =>
                let field2 : FormField := { field1 with datapad_field_id := none }
                let rest := sync_field remote now fuel' field2 true conflict_resolution
                (rest.1, rest.2.1, call :: rest.2.2)
          else
            let field2 : FormField := { field1 with status := "conflict" }
            (field2,
             { field_id := field.id, status := .conflict,
               error_message := some ("DataPad field not found: " ++ msg) },
             [call])
      | .error (.apiError className msg) =>
          let field2 : FormField := { field1 with status := "error" }
          (field2,
           { field_id := field.id, status := .error,
             error_message := some (className ++ ": " ++ msg) },
           [call])
      | .error (.unexpected msg) =>
          let field2 : FormField := { field1 with status := "error" }
          (field2,
           { field_id := field.id, status := .error,
             error_message := some ("Unexpected error: " ++ msg) },
           [call])

/-- Summary counters of `sync_document` (`{"synced", "pending", "failed", "skipped"}`). -/
structure Summary where
  synced : Nat
  pending : Nat
  failed : Nat
  skipped : Nat
deriving DecidableEq, Repr

/-- The per-result summary increment of the `sync_document` loop: `synced` and
`pending` count themselves, `error` counts as `failed`, and everything else
(in particular `conflict`) counts as `skipped`. -/
def bump_summary (s : Summary) : SyncStatus → Summary
  | .synced => { s with synced := s.synced + 1 }
  | .pending => { s with pending := s.pending + 1 }
  | .error => { s with failed := s.failed + 1 }
  | _ => { s with skipped := s.skipped + 1 }

/-- Schema `DataPadSyncResponse`: document-level sync response. -/
structure DataPadSyncResponse where
  form_id : Nat
  status : SyncStatus
  results : List DataPadSyncResult
  summary : Summary
  message : Option String := none
  started_at : Nat
  completed_at : Nat
deriving DecidableEq, Repr

/-- The persistent store seen by `SyncService`: the set of existing document
ids and the field rows. -/
structure Database where
  documents : List Nat
  fields : List FormField
deriving DecidableEq, Repr

/-- Selection predicate of the field query in `sync_document` and
`reset_sync_status`: `form_id == document_id`, further restricted to
`field_ids` when that argument is truthy (non-`None`, non-empty). -/
def selected_for (document_id : Nat) (field_ids : Option (List Nat)) (f : FormField) : Bool :=
  f.form_id == document_id &&
    (if pyTruthyList field_ids then (field_ids.getD []).contains f.id else true)

/-- The field rows returned by the selection query, in stored order. -/
def select_fields (db : Database) (document_id : Nat)
    (field_ids : Option (List Nat)) : List FormField :=
  db.fields.filter (selected_for document_id field_ids)

/-- Session commit of one mutated field row: replace the row with that id. -/
def store_field (fields : List FormField) (f' : FormField) : List FormField :=
  fields.map (fun g => if g.id == f'.id then f' else g)

/-- The per-field loop of `sync_document`: sync each selected field in order,
committing each updated row before moving on, and accumulate the result list,
the summary counters and the trace of remote calls. -/
def sync_loop (remote : RemoteOracle) (now fuel : Nat) (force : Bool)
    (conflict_resolution : String) :
    List FormField → Database → Database × List DataPadSyncResult × Summary × List RemoteCall
  | [], db => (db, [], ⟨0, 0, 0, 0⟩, [])
  | f :: rest, db =>
      let step := sync_field remote now fuel f force conflict_resolution
      let db' : Database := { db with fields := store_field db.fields step.1 }
      let tail := sync_loop remote now fuel force conflict_resolution rest db'
      (tail.1, step.2.1 :: tail.2.1, bump_summary tail.2.2.1 step.2.1.status,
       step.2.2 ++ tail.2.2.2)

/-- `SyncService.sync_document` with the module's name slip repaired.  The
body as staged reads the globals `Form` (line 97) and `FormField` (line 102),
which the module never binds — its import binds `PdfDocument` and `PdfField` —
so the real function raises `NameError` on every call; that behaviour is
modelled separately in `sync_document_as_written` below.  This definition
gives the semantics the function's own docstring (`Raises ValueError: If
document not found`, `Returns: Sync response with results for each field`)
and the route contract (404 on absent form) document, reading `Form` and
`FormField` as the imported model classes: it raises (returns `.error`) the
document-not-found `ValueError` (surfaced as HTTP 404 NotFound by the route
layer) when the document id is absent; otherwise it returns the updated
store, the `DataPadSyncResponse`, and the full trace of remote calls. -/
def sync_document (remote : RemoteOracle) (now fuel : Nat) (db : Database)
    (document_id : Nat) (field_ids : Option (List Nat) := none)
    (force : Bool := false) (conflict_resolution : String := "skip") :
    Except String (Database × DataPadSyncResponse × List RemoteCall) :=
  if document_id ∈ db.documents then
    let fields := select_fields db document_id field_ids
    if fields.isEmpty then
      .ok (db,
        { form_id := document_id, status := .synced, results := [],
          summary := ⟨0, 0, 0, 0⟩, message := some "No fields to sync",
          started_at := now, completed_at := now },
        [])
    else
      let run := sync_loop remote now fuel force conflict_resolution fields db
      let overall : SyncStatus :=
        if run.2.2.1.failed > 0 then .error
        else if run.2.2.1.pending > 0 then .syncing
        else .synced
      .ok (run.1,
        { form_id := document_id, status := overall, results := run.2.1,
          summary := run.2.2.1, started_at := now, completed_at := now },
        run.2.2.2)
  else
    .error ("Document " ++ toString document_id ++ " not found")

/-- The row transformation applied by `reset_sync_status` to each selected
field: status `"pending"`, `datapad_field_id` cleared, timestamp touched. -/
def reset_row (now : Nat) (f : FormField) : FormField :=
  { f with status := "pending", datapad_field_id := none, updated_at := now }

/-- The loop body of `reset_sync_status` seen row-wise: selected rows are
reset, the rest are left alone. -/
def reset_step (now document_id : Nat) (field_ids : Option (List Nat))
    (f : FormField) : FormField :=
  if selected_for document_id field_ids f then reset_row now f else f

/-- `SyncService.reset_sync_status` with the module's name slip repaired (as
staged, its first statement at line 401 evaluates the unbound global
`FormField` and raises `NameError`; see `reset_sync_status_as_written`
below): reset every selected field row and return the new store together
with the count of affected rows, as its docstring (`Returns: Number of
fields reset`) documents. -/
def reset_sync_status (now : Nat) (db : Database) (document_id : Nat)
    (field_ids : Option (List Nat) := none) : Database × Nat :=
  ({ db with fields := db.fields.map (reset_step now document_id field_ids) },
   (db.fields.filter (selected_for document_id field_ids)).length)

/-! ## The module as staged: the unbound globals `Form` and `FormField` -/

/-- Python exceptions raised by the orchestrator entry points as staged: the
`NameError` for evaluating an unbound global, and the `ValueError` for an
absent document. -/
inductive PyExc
  | nameError (name : String)
  | valueError (message : String)
deriving DecidableEq, Repr

/-- The names bound at module level in `sync_service.py`: its imports (the
model import binds `PdfDocument` and `PdfField`, not `Form` or `FormField`),
the module logger and its two class definitions.  The future import makes
every type hint unevaluated, so the `FormField` hints in signatures never
resolve the name either, and neither `Form` nor `FormField` is a Python
builtin. -/
def sync_service_module_globals : List String :=
  ["logging", "datetime", "List", "Optional", "Tuple", "Session", "select",
   "PdfDocument", "PdfField", "DataPadFieldCreate", "DataPadSyncPayload",
   "DataPadSyncResponse", "DataPadSyncResult", "DataPadSyncStatusResponse",
   "SyncStatus", "DataPadAPIError", "DataPadClient", "DataPadNotFoundError",
   "logger", "SyncConflictError", "SyncService"]

/-- Evaluating a global name in a `sync_service.py` function body: succeeds
when the module binds the name and raises `NameError` otherwise. -/
def py_eval_name (name : String) : Except PyExc Unit :=
  if sync_service_module_globals.contains name then Except.ok ()
  else Except.error (PyExc.nameError name)

/-- `SyncService.sync_document` exactly as staged: line 97 evaluates the
global `Form` before anything else, line 99 raises `ValueError` for an absent
document, line 102 evaluates the global `FormField`, and only then does the
sync proper (the repaired `sync_document` above) run.  Since `Form` is
unbound, every call stops at the first step. -/
def sync_document_as_written (remote : RemoteOracle) (now fuel : Nat)
    (db : Database) (document_id : Nat) (field_ids : Option (List Nat) := none)
    (force : Bool := false) (conflict_resolution : String := "skip") :
    Except PyExc (Database × DataPadSyncResponse × List RemoteCall) :=
  match py_eval_name "Form" with
  | .error e => .error e
  | .ok _ =>
      if document_id ∈ db.documents then
        match py_eval_name "FormField" with
        | .error e => .error e
        | .ok _ =>
            match sync_document remote now fuel db document_id field_ids force
                conflict_resolution with
            | .ok out => .ok out
            | .error msg => .error (.valueError msg)
      else
        .error (.valueError ("Document " ++ toString document_id ++ " not found"))

/-- `SyncService.reset_sync_status` exactly as staged: its first statement
(line 401) evaluates the unbound global `FormField`, so every call raises
`NameError` before any row is reset or any count returned. -/
def reset_sync_status_as_written (now : Nat) (db : Database) (document_id : Nat)
    (field_ids : Option (List Nat) := none) : Except PyExc (Database × Nat) :=
  match py_eval_name "FormField" with
  | .error e => .error e
  | .ok _ => .ok (reset_sync_status now db document_id field_ids)

/-- Whether an orchestrator call returned a sync response rather than raising. -/
def succeeded : Except PyExc (Database × DataPadSyncResponse × List RemoteCall) → Bool
  | .ok _ => true
  | .error _ => false

/-! ## Remote client retry loop (`datapad_client.py`) -/

/-- Outcome of one underlying HTTP attempt inside `DataPadClient._request`:
a retryable transport failure (`httpx.TimeoutException` / `httpx.NetworkError`),
an HTTP response with a status code, or some other unexpected exception. -/
inductive AttemptOutcome
  | transient
  | httpResponse (status : Nat) (message : String)
  | otherFailure (message : String)
deriving DecidableEq, Repr

/-- Error kinds raised by `_request`: the classified `DataPadAPIError`
subclasses from `_handle_error_response`, the catch-all `DataPadAPIError`, and
tenacity's `RetryError` after the retry budget is exhausted. -/
inductive RequestError
  | authenticationError (message : String)
  | notFoundError (message : String)
  | validationError (message : String)
  | rateLimitError (message : String)
  | apiError (message : String)
  | retryExhausted
deriving DecidableEq, Repr

/-- `DataPadClient._handle_error_response`: classify an HTTP error status. -/
def handle_error_response (status : Nat) (message : String) : RequestError :=
  if status == 401 || status == 403 then .authenticationError message
  else if status == 404 then .notFoundError message
  else if status == 422 then .validationError message
  else if status == 429 then .rateLimitError message
  else .apiError message

/-- tenacity `wait_exponential(multiplier, min, max)` wait (in seconds) after
the attempt numbered `attempt_number`: `multiplier * 2^(attempt_number - 1)`
clamped into `[mn, mx]`. -/
def wait_exponential (multiplier mn mx attempt_number : Nat) : Nat :=
  Nat.max mn (Nat.min (multiplier * 2 ^ (attempt_number - 1)) mx)

/-- Result of one body execution of `_request`: success data, a retryable
raise (timeout/network re-raised for tenacity), or a classified raise. -/
inductive AttemptResult
  | success (data : String)
  | retryableRaise
  | classifiedRaise (e : RequestError)
deriving DecidableEq, Repr

/-- One execution of the `_request` body given the underlying attempt outcome:
timeouts and network errors re-raise (retryable); a response with status ≥ 400
raises the classified error; any other exception is wrapped in a
`DataPadAPIError` (not retryable); otherwise the data is returned. -/
def run_attempt : AttemptOutcome → AttemptResult
  | .transient => .retryableRaise
  | .httpResponse status message =>
      if status ≥ 400 then .classifiedRaise (handle_error_response status message)
      else .success message
  | .otherFailure message => .classifiedRaise (.apiError ("Unexpected error: " ++ message))

/-- tenacity driver of `_request` with `stop_after_attempt(max_attempts)` and
`retry_if_exception_type((TimeoutException, NetworkError))`: runs attempts
numbered from `n`, retrying (after a `wait_exponential 1 2 10` sleep) only on
retryable raises while the attempt number is below the cap.  Returns the
number of underlying requests issued, the list of backoff waits, and the
final outcome. -/
def request_retry_go (attempt : Nat → AttemptOutcome) (max_attempts : Nat) :
    Nat → Nat → Nat × List Nat × Except RequestError String
  | 0, _ => (0, [], .error .retryExhausted)
  | Nat.succ fuel, n =>
      match run_attempt (attempt n) with
      | .success d => (1, [], .ok d)
      | .classifiedRaise e => (1, [], .error e)
      | .retryableRaise =>
          if n < max_attempts then
            let rest := request_retry_go attempt max_attempts fuel (n + 1)
            (rest.1 + 1, wait_exponential 1 2 10 n :: rest.2.1, rest.2.2)
          else (1, [], .error .retryExhausted)

/-- `DataPadClient._request` under its retry decorator: up to 3 attempts,
starting at attempt number 1. -/
def datapad_request (attempt : Nat → AttemptOutcome) :
    Nat × List Nat × Except RequestError String :=
  request_retry_go attempt 3 3 1

/-! ## Concrete instances used to exercise the theorems -/

/-- A remote oracle whose every call succeeds with a fixed remote field. -/
def remote_ok : RemoteOracle := fun _ => Except.ok ⟨"dp1", "label", "text"⟩

/-- A remote oracle whose update calls raise `NotFound` (the remote field was
deleted out-of-band) and whose create calls succeed. -/
def remote_gone : RemoteOracle := fun c =>
  match c with
  | .updateField _ _ => Except.error (.notFound "gone")
  | .createField _ => Except.ok ⟨"dp2", "label", "text"⟩

/-- A concrete already-synced mapped field row. -/
def fieldW1 : FormField :=
  ⟨1, 7, "name", none, none, "text", false, none, some "r1", "synced", 0⟩

/-- A concrete unmapped draft field row. -/
def fieldW2 : FormField :=
  ⟨2, 7, "mail", none, none, "email", false, none, none, "draft", 0⟩

/-- A concrete previously-mapped field row in error state. -/
def fieldW3 : FormField :=
  ⟨3, 7, "age", none, none, "number", false, none, some "r3", "error", 0⟩

/-- A concrete store holding document 7 and its three field rows. -/
def dbW : Database := ⟨[7], [fieldW1, fieldW2, fieldW3]⟩

/-- A concrete synced field whose stored remote id is the empty string:
non-null, yet falsy for Python's `if field.datapad_field_id and ...` check. -/
def field_empty_rid : FormField :=
  ⟨4, 7, "nick", none, none, "text", false, none, some "", "synced", 0⟩

/-- The concrete outcome of syncing document 7 of `dbW` against `remote_ok`. -/
def outW : Database × DataPadSyncResponse × List RemoteCall :=
  (⟨[7], [fieldW1,
          { fieldW2 with datapad_field_id := some "dp1", status := "synced", updated_at := 5 },
          { fieldW3 with datapad_field_id := some "dp1", status := "synced", updated_at := 5 }]⟩,
   { form_id := 7, status := .synced,
     results := [⟨1, .synced, some "r1", none, none⟩,
                 ⟨2, .synced, some "dp1", none, some 5⟩,
                 ⟨3, .synced, some "dp1", none, some 5⟩],
     summary := ⟨3, 0, 0, 0⟩, message := none, started_at := 5, completed_at := 5 },
   [RemoteCall.createField (create_payload { fieldW2 with status := "syncing", updated_at := 5 }),
    RemoteCall.updateField "r3" (update_payload { fieldW3 with status := "syncing", updated_at := 5 })])

/-! ## Helper lemmas -/

/-- A successful association-list lookup returns one of the stored values. -/
theorem lookup_mem_snd {l : List (String × String)} {k v : String}
    (h : l.lookup k = some v) : v ∈ l.map Prod.snd := by
  induction l with
  | nil => simp [List.lookup] at h
  | cons p t ih =>
      obtain ⟨pk, pv⟩ := p
      rw [List.lookup] at h
      rw [List.map_cons]
      cases hk : (k == pk) with
      | true =>
          rw [hk] at h
          simp only [Option.some.injEq] at h
          subst h
          exact List.mem_cons_self _ _
      | false =>
          rw [hk] at h
          exact List.mem_cons_of_mem _ (ih h)

/-- Looking up a key absent from the association list yields `none`. -/
theorem lookup_eq_none_of_not_mem_fst {l : List (String × String)} {k : String}
    (h : k ∉ l.map Prod.fst) : l.lookup k = none := by
  induction l with
  | nil => rfl
  | cons p t ih =>
      obtain ⟨pk, pv⟩ := p
      rw [List.map_cons, List.mem_cons] at h
      push_neg at h
      rw [List.lookup]
      have hk : (k == pk) = false := by
        simp [h.1]
      rw [hk]
      exact ih h.2

/-- With `field_ids` equal to `None`, the selection predicate is exactly the
`form_id` filter. -/
theorem selected_for_none (document_id : Nat) (f : FormField) :
    selected_for document_id none f = (f.form_id == document_id) := by
  simp [selected_for, pyTruthyList]

/-! ## C10: totality of the field-type mapping -/

/-- C10: `_map_field_type` is total into the remote field-type enum: every
input yields a member of `DataPadFieldType`; `"dropdown"` maps to `"select"`;
each other known type maps (case-insensitively) to itself; every unrecognized
type maps to `"text"`; hence the payloads built for `createField` and
`updateField` always carry a valid remote field type. -/
theorem map_field_type_total :
    (∀ s : String, map_field_type s ∈ dataPadFieldTypes)
    ∧ map_field_type "dropdown" = "select"
    ∧ (∀ s t : String,
        t ∈ ["text", "textarea", "number", "email", "phone", "date",
             "checkbox", "radio", "signature", "file"] →
        py_lower s = t → map_field_type s = t)
    ∧ (∀ s : String, py_lower s ∉ field_type_mapping.map Prod.fst →
        map_field_type s = "text")
    ∧ (∀ f : FormField, (create_payload f).field_type ∈ dataPadFieldTypes
        ∧ (update_payload f).field_type ∈ dataPadFieldTypes) := by
  have htotal : ∀ s : String, map_field_type s ∈ dataPadFieldTypes := by
    intro s
    unfold map_field_type
    cases h : field_type_mapping.lookup (py_lower s) with
    | none => simp [dataPadFieldTypes]
    | some v =>
        have hv := lookup_mem_snd h
        simp only [field_type_mapping, List.map_cons, List.map_nil,
          List.mem_cons, List.not_mem_nil, or_false] at hv
        rcases hv with rfl | rfl | rfl | rfl | rfl | rfl | rfl | rfl | rfl | rfl | rfl <;>
          simp [dataPadFieldTypes]
  refine ⟨htotal, by decide, ?_, ?_, ?_⟩
  · intro s t ht hs
    unfold map_field_type
    rw [hs]
    simp only [List.mem_cons, List.not_mem_nil, or_false] at ht
    rcases ht with rfl | rfl | rfl | rfl | rfl | rfl | rfl | rfl | rfl | rfl <;> decide
  · intro s hs
    unfold map_field_type
    rw [lookup_eq_none_of_not_mem_fst hs]
    rfl
  · intro f
    exact ⟨htotal f.field_type, htotal f.field_type⟩

/-- Witness for C10: concrete instantiations of the quantified conjuncts, with
every hypothesis discharged on a concrete input. -/
theorem map_field_type_total_witness :
    map_field_type "Dropdown" ∈ dataPadFieldTypes
    ∧ map_field_type "TEXT" = "text"
    ∧ map_field_type "photo" = "text" :=
  ⟨map_field_type_total.1 "Dropdown",
   map_field_type_total.2.2.1 "TEXT" "text" (by decide) (by decide),
   map_field_type_total.2.2.2.1 "photo" (by decide)⟩

/-! ## Selection semantics of the repaired orchestrator -/

/-- Intended behaviour: calling the repaired `sync_document` with
`field_ids = []` behaves identically to
omitting `field_ids` (the Python `if field_ids:` guard treats the empty list
as falsy), and the resulting selection is all fields of the document. -/
theorem sync_document_empty_field_ids (remote : RemoteOracle) (now fuel : Nat)
    (db : Database) (document_id : Nat) (force : Bool)
    (conflict_resolution : String) :
    sync_document remote now fuel db document_id (some []) force conflict_resolution
      = sync_document remote now fuel db document_id none force conflict_resolution
    ∧ select_fields db document_id (some [])
      = db.fields.filter (fun f => f.form_id == document_id) := by
  constructor
  · rfl
  · have hsel : selected_for document_id (some [])
        = fun f => f.form_id == document_id := by
      funext f
      simp [selected_for, pyTruthyList]
    rw [select_fields, hsel]

/-! ## Empty selection in the repaired orchestrator -/

/-- Intended behaviour: for an existing document whose field selection is
empty, the repaired sync returns
immediately with status `synced`, an empty result list, an all-zero summary,
and no remote calls. -/
theorem sync_document_empty_selection (remote : RemoteOracle) (now fuel : Nat)
    (db : Database) (document_id : Nat) (field_ids : Option (List Nat))
    (force : Bool) (conflict_resolution : String)
    (hdoc : document_id ∈ db.documents)
    (hempty : select_fields db document_id field_ids = []) :
    sync_document remote now fuel db document_id field_ids force conflict_resolution
      = Except.ok (db,
          { form_id := document_id, status := .synced, results := [],
            summary := ⟨0, 0, 0, 0⟩, message := some "No fields to sync",
            started_at := now, completed_at := now },
          []) := by
  unfold sync_document
  rw [if_pos hdoc, hempty]
  rfl

/-- Concrete instance: a store holding document 9 with no field rows. -/
theorem sync_document_empty_selection_witness :
    sync_document remote_ok 5 4 ⟨[9], []⟩ 9 none false "skip"
      = Except.ok (⟨[9], []⟩,
          { form_id := 9, status := .synced, results := [],
            summary := ⟨0, 0, 0, 0⟩, message := some "No fields to sync",
            started_at := 5, completed_at := 5 },
          []) :=
  sync_document_empty_selection remote_ok 5 4 ⟨[9], []⟩ 9 none false "skip"
    (by decide) (by decide)

/-! ## Aggregate document-level status of the repaired orchestrator -/

/-- Intended behaviour: for every completed invocation of the repaired sync,
the aggregate document status is
`error` if the summary's failed count is positive, else `syncing` if its
pending count is positive, else `synced`. -/
theorem sync_document_overall_status (remote : RemoteOracle) (now fuel : Nat)
    (db : Database) (document_id : Nat) (field_ids : Option (List Nat))
    (force : Bool) (conflict_resolution : String)
    (out : Database × DataPadSyncResponse × List RemoteCall)
    (h : sync_document remote now fuel db document_id field_ids force conflict_resolution
          = Except.ok out) :
    out.2.1.status =
      (if out.2.1.summary.failed > 0 then SyncStatus.error
       else if out.2.1.summary.pending > 0 then SyncStatus.syncing
       else SyncStatus.synced) := by
  unfold sync_document at h
  split at h
  · simp only [] at h
    split at h
    · simp only [Except.ok.injEq] at h
      subst h
      rfl
    · simp only [Except.ok.injEq] at h
      subst h
      rfl
  · exact absurd h (by simp)

/-- Concrete instance: a completed repaired sync of the concrete store, with
the success hypothesis discharged by evaluation. -/
theorem sync_document_overall_status_witness :
    outW.2.1.status =
      (if outW.2.1.summary.failed > 0 then SyncStatus.error
       else if outW.2.1.summary.pending > 0 then SyncStatus.syncing
       else SyncStatus.synced) :=
  sync_document_overall_status remote_ok 5 4 dbW 7 none false "skip" outW (by rfl)

/-! ## C7: retry policy of the remote client -/

/-- An execution of the `_request` body re-raises a retryable exception
exactly when the underlying attempt failed with a timeout/network error. -/
theorem run_attempt_retryable_iff (o : AttemptOutcome) :
    run_attempt o = AttemptResult.retryableRaise ↔ o = AttemptOutcome.transient := by
  cases o with
  | transient => simp [run_attempt]
  | httpResponse status message =>
      simp only [run_attempt]
      split <;> simp
  | otherFailure message => simp [run_attempt]

/-- C7: the remote client issues at most 3 underlying requests; every backoff
wait lies between 2s and 10s; an HTTP 4xx application error is classified and
raised after exactly one request, with no retry and no backoff; and a second
or third request is issued only when the preceding attempts failed with a
transient timeout/network error. -/
theorem datapad_request_retry_policy (attempt : Nat → AttemptOutcome) :
    (datapad_request attempt).1 ≤ 3
    ∧ (∀ w ∈ (datapad_request attempt).2.1, 2 ≤ w ∧ w ≤ 10)
    ∧ (∀ status message, 400 ≤ status → status < 500 →
        attempt 1 = AttemptOutcome.httpResponse status message →
        datapad_request attempt
          = (1, [], Except.error (handle_error_response status message)))
    ∧ (2 ≤ (datapad_request attempt).1 → attempt 1 = AttemptOutcome.transient)
    ∧ ((datapad_request attempt).1 = 3 →
        attempt 1 = AttemptOutcome.transient ∧ attempt 2 = AttemptOutcome.transient) := by
  cases h1 : run_attempt (attempt 1) with
  | success d1 =>
      have hd : datapad_request attempt = (1, [], Except.ok d1) := by
        simp [datapad_request, request_retry_go, h1]
      refine ⟨by rw [hd]; try omega
              , by rw [hd]; simp, ?_, by rw [hd]; omega, by rw [hd]; omega⟩
      intro status message hs _ hat
      rw [hat] at h1
      simp only [run_attempt, ge_iff_le, if_pos hs] at h1
      exact AttemptResult.noConfusion h1
  | classifiedRaise e1 =>
      have hd : datapad_request attempt = (1, [], Except.error e1) := by
        simp [datapad_request, request_retry_go, h1]
      refine ⟨by rw [hd]; try omega
              , by rw [hd]; simp, ?_, by rw [hd]; omega, by rw [hd]; omega⟩
      intro status message hs _ hat
      rw [hat] at h1
      simp only [run_attempt, ge_iff_le, if_pos hs] at h1
      injection h1 with h1e
      rw [hd, ← h1e]
  | retryableRaise =>
      have ht1 : attempt 1 = AttemptOutcome.transient :=
        (run_attempt_retryable_iff _).mp h1
      cases h2 : run_attempt (attempt 2) with
      | success d2 =>
          have hd : datapad_request attempt = (2, [2], Except.ok d2) := by
            simp [datapad_request, request_retry_go, h1, h2, wait_exponential]
          refine ⟨by rw [hd]; try omega
              , by rw [hd]; simp, ?_, fun _ => ht1, by rw [hd]; omega⟩
          intro status message _ _ hat
          rw [hat] at ht1
          exact absurd ht1 (by simp)
      | classifiedRaise e2 =>
          have hd : datapad_request attempt = (2, [2], Except.error e2) := by
            simp [datapad_request, request_retry_go, h1, h2, wait_exponential]
          refine ⟨by rw [hd]; try omega
              , by rw [hd]; simp, ?_, fun _ => ht1, by rw [hd]; omega⟩
          intro status message _ _ hat
          rw [hat] at ht1
          exact absurd ht1 (by simp)
      | retryableRaise =>
          have ht2 : attempt 2 = AttemptOutcome.transient :=
            (run_attempt_retryable_iff _).mp h2
          cases h3 : run_attempt (attempt 3) with
          | success d3 =>
              have hd : datapad_request attempt = (3, [2, 2], Except.ok d3) := by
                simp [datapad_request, request_retry_go, h1, h2, h3, wait_exponential]
              refine ⟨by rw [hd]; try omega
              , by rw [hd]; simp, ?_, fun _ => ht1, fun _ => ⟨ht1, ht2⟩⟩
              intro status message _ _ hat
              rw [hat] at ht1
              exact absurd ht1 (by simp)
          | classifiedRaise e3 =>
              have hd : datapad_request attempt = (3, [2, 2], Except.error e3) := by
                simp [datapad_request, request_retry_go, h1, h2, h3, wait_exponential]
              refine ⟨by rw [hd]; try omega
              , by rw [hd]; simp, ?_, fun _ => ht1, fun _ => ⟨ht1, ht2⟩⟩
              intro status message _ _ hat
              rw [hat] at ht1
              exact absurd ht1 (by simp)
          | retryableRaise =>
              have hd : datapad_request attempt
                  = (3, [2, 2], Except.error RequestError.retryExhausted) := by
                simp [datapad_request, request_retry_go, h1, h2, h3, wait_exponential]
              refine ⟨by rw [hd]; try omega
              , by rw [hd]; simp, ?_, fun _ => ht1, fun _ => ⟨ht1, ht2⟩⟩
              intro status message _ _ hat
              rw [hat] at ht1
              exact absurd ht1 (by simp)

/-- Witness for C7: a 404 response is classified and raised after one request,
and a second request implies the first attempt was transient. -/
theorem datapad_request_retry_policy_witness :
    datapad_request (fun _ => AttemptOutcome.httpResponse 404 "nf")
      = (1, [], Except.error (handle_error_response 404 "nf"))
    ∧ (fun n => if n == 1 then AttemptOutcome.transient
                else AttemptOutcome.httpResponse 200 "ok") 1
      = AttemptOutcome.transient :=
  ⟨(datapad_request_retry_policy (fun _ => AttemptOutcome.httpResponse 404 "nf")).2.2.1
      404 "nf" (by decide) (by decide) rfl,
   (datapad_request_retry_policy (fun n => if n == 1 then AttemptOutcome.transient
      else AttemptOutcome.httpResponse 200 "ok")).2.2.2.1 (by decide)⟩

/-! ## Reset of sync status in the repaired orchestrator -/

/-- The reset transformation leaves the selection predicate unchanged, since
it touches neither `id` nor `form_id`. -/
theorem selected_for_reset_step (now document_id : Nat)
    (fids : Option (List Nat)) (f : FormField) :
    selected_for document_id fids (reset_step now document_id fids f)
      = selected_for document_id fids f := by
  unfold reset_step
  by_cases h : selected_for document_id fids f = true
  · rw [if_pos h]
    rfl
  · rw [if_neg h]

/-- Resetting a row twice is the same as resetting it once. -/
theorem reset_step_idem (now document_id : Nat) (fids : Option (List Nat))
    (f : FormField) :
    reset_step now document_id fids (reset_step now document_id fids f)
      = reset_step now document_id fids f := by
  unfold reset_step
  by_cases h : selected_for document_id fids f = true
  · rw [if_pos h, if_pos (show selected_for document_id fids (reset_row now f) = true from h)]
    rfl
  · rw [if_neg h, if_neg h]

/-- Row-wise idempotence lifted to the whole field table. -/
theorem map_reset_step_idem (now document_id : Nat) (fids : Option (List Nat)) :
    ∀ l : List FormField,
      (l.map (reset_step now document_id fids)).map (reset_step now document_id fids)
        = l.map (reset_step now document_id fids)
  | [] => rfl
  | f :: t => by
      rw [List.map_cons, List.map_cons, reset_step_idem,
          map_reset_step_idem now document_id fids t]

/-- A reset pass does not change how many rows the selection query matches. -/
theorem filter_length_map_reset (now document_id : Nat) (fids : Option (List Nat)) :
    ∀ l : List FormField,
      ((l.map (reset_step now document_id fids)).filter (selected_for document_id fids)).length
        = (l.filter (selected_for document_id fids)).length
  | [] => rfl
  | f :: t => by
      rw [List.map_cons, List.filter_cons, List.filter_cons, selected_for_reset_step]
      by_cases h : selected_for document_id fids f = true
      · rw [if_pos h, if_pos h, List.length_cons, List.length_cons,
            filter_length_map_reset now document_id fids t]
      · rw [if_neg h, if_neg h]
        exact filter_length_map_reset now document_id fids t

/-- Intended behaviour: the repaired `reset_sync_status` with no `field_ids`
filter returns a count equal
to the number of fields of the document; afterwards every field of the
document has status `pending` and no `datapad_field_id`; and the operation is
idempotent (a re-run returns the same count, and at the same timestamp leaves
the store bit-for-bit identical). -/
theorem reset_sync_status_all (now now2 : Nat) (db : Database) (document_id : Nat) :
    (reset_sync_status now db document_id none).2
        = (db.fields.filter (fun f => f.form_id == document_id)).length
    ∧ (∀ f, f ∈ (reset_sync_status now db document_id none).1.fields →
        f.form_id = document_id →
        f.status = "pending" ∧ f.datapad_field_id = none)
    ∧ (reset_sync_status now2 (reset_sync_status now db document_id none).1
          document_id none).2
        = (reset_sync_status now db document_id none).2
    ∧ reset_sync_status now (reset_sync_status now db document_id none).1
          document_id none
        = reset_sync_status now db document_id none := by
  have hsel : selected_for document_id (none : Option (List Nat))
      = fun f : FormField => f.form_id == document_id :=
    funext (selected_for_none document_id)
  refine ⟨?_, ?_, ?_, ?_⟩
  · simp only [reset_sync_status]
    rw [hsel]
  · intro f hf hform
    simp only [reset_sync_status] at hf
    rcases List.mem_map.mp hf with ⟨a, _, rfl⟩
    by_cases h : selected_for document_id (none : Option (List Nat)) a = true
    · rw [reset_step, if_pos h]
      exact ⟨rfl, rfl⟩
    · rw [reset_step, if_neg h] at hform
      rw [selected_for_none] at h
      exact absurd (by simp [hform]) h
  · simp only [reset_sync_status]
    exact filter_length_map_reset now document_id none db.fields
  · simp only [reset_sync_status]
    rw [map_reset_step_idem now document_id none db.fields,
        filter_length_map_reset now document_id none db.fields]

/-- Concrete instance: resetting document 7 in the concrete store, with the
membership and `form_id` hypotheses discharged on the first row. -/
theorem reset_sync_status_all_witness :
    (reset_sync_status 3 dbW 7 none).2
        = (dbW.fields.filter (fun f => f.form_id == 7)).length
    ∧ ((reset_row 3 fieldW1).status = "pending"
        ∧ (reset_row 3 fieldW1).datapad_field_id = none) :=
  ⟨(reset_sync_status_all 3 3 dbW 7).1,
   (reset_sync_status_all 3 3 dbW 7).2.1 (reset_row 3 fieldW1) (by decide) (by decide)⟩

/-! ## C1 and C2: NotFound during update, by conflict policy -/

/-- The error message recorded for a remote-field-gone conflict is non-empty. -/
theorem notfound_message_ne_empty (msg : String) :
    ("DataPad field not found: " ++ msg) ≠ "" := by
  intro h
  have hd := congrArg String.data h
  rw [String.data_append] at hd
  rcases List.append_eq_nil.mp hd with ⟨h1, _⟩
  exact absurd h1 (by decide)

/-- C1: for a field carrying a remote id, when the `updateField` call raises
`NotFound` and the policy is `overwrite`, exactly one follow-up `createField`
call is issued (the trace is precisely the failed update followed by one
create — one retry, not recursive beyond one level), and when that create
succeeds the field ends `synced` (not `conflict`) with the new remote id. -/
theorem sync_field_overwrite_notfound (remote : RemoteOracle) (now fuel : Nat)
    (field : FormField) (force : Bool) (rid msg : String) (dp : DataPadField)
    (hid : field.datapad_field_id = some rid) (hrid : rid ≠ "")
    (hnoskip : field.status = "synced" → force = true)
    (hupd : ∀ i p, remote (RemoteCall.updateField i p)
        = Except.error (DataPadExc.notFound msg))
    (hcre : ∀ p, remote (RemoteCall.createField p) = Except.ok dp) :
    ∃ p q, (sync_field remote now (fuel + 1) field force "overwrite").2.2
        = [RemoteCall.updateField rid p, RemoteCall.createField q]
      ∧ (sync_field remote now (fuel + 1) field force "overwrite").2.1.status
          = SyncStatus.synced
      ∧ (sync_field remote now (fuel + 1) field force "overwrite").1.status = "synced"
      ∧ (sync_field remote now (fuel + 1) field force "overwrite").1.datapad_field_id
          = some dp.id := by
  have hskip : (pyTruthyStr field.datapad_field_id && field.status == "synced" && !force)
      = false := by
    rw [hid]
    by_cases hs : field.status = "synced"
    · have hf := hnoskip hs
      simp [pyTruthyStr, hf]
    · simp [pyTruthyStr, hs]
  have hne : (rid == "") = false := by simp [hrid]
  rw [sync_field, hskip]
  simp only [Bool.false_eq_true, if_false]
  rw [hid]
  simp only [sync_call, pyTruthyStr, hne, Bool.not_false, if_true, Option.getD_some]
  rw [hupd]
  simp only []
  rw [sync_field]
  simp only [sync_call, pyTruthyStr, Bool.false_and, Bool.false_eq_true, if_false]
  rw [hcre]
  exact ⟨_, _, rfl, rfl, rfl, rfl⟩

/-- Witness for C1: the error-state mapped field of the concrete store synced
against an oracle whose updates raise `NotFound` and whose creates succeed. -/
theorem sync_field_overwrite_notfound_witness :
    ∃ p q, (sync_field remote_gone 5 (3 + 1) fieldW3 false "overwrite").2.2
        = [RemoteCall.updateField "r3" p, RemoteCall.createField q]
      ∧ (sync_field remote_gone 5 (3 + 1) fieldW3 false "overwrite").2.1.status
          = SyncStatus.synced
      ∧ (sync_field remote_gone 5 (3 + 1) fieldW3 false "overwrite").1.status = "synced"
      ∧ (sync_field remote_gone 5 (3 + 1) fieldW3 false "overwrite").1.datapad_field_id
          = some "dp2" :=
  sync_field_overwrite_notfound remote_gone 5 3 fieldW3 false "r3" "gone"
    ⟨"dp2", "label", "text"⟩ rfl (by decide) (fun h => absurd h (by decide))
    (fun _ _ => rfl) (fun _ => rfl)

/-- C2: for a field carrying a remote id, when the `updateField` call raises
`NotFound` and the policy is `skip` or `merge`, the field ends status
`conflict` with a non-empty error message, its stored `remoteFieldId` is
unchanged, and the failed update is the only remote call for this field. -/
theorem sync_field_skip_policy_conflict (remote : RemoteOracle) (now fuel : Nat)
    (field : FormField) (force : Bool) (rid msg : String)
    (conflict_resolution : String)
    (hid : field.datapad_field_id = some rid) (hrid : rid ≠ "")
    (hnoskip : field.status = "synced" → force = true)
    (hcr : conflict_resolution = "skip" ∨ conflict_resolution = "merge")
    (hupd : ∀ i p, remote (RemoteCall.updateField i p)
        = Except.error (DataPadExc.notFound msg)) :
    (∃ p, (sync_field remote now fuel field force conflict_resolution).2.2
        = [RemoteCall.updateField rid p])
    ∧ (sync_field remote now fuel field force conflict_resolution).2.1.status
        = SyncStatus.conflict
    ∧ (sync_field remote now fuel field force conflict_resolution).2.1.error_message
        = some ("DataPad field not found: " ++ msg)
    ∧ ("DataPad field not found: " ++ msg) ≠ ""
    ∧ (sync_field remote now fuel field force conflict_resolution).1.status = "conflict"
    ∧ (sync_field remote now fuel field force conflict_resolution).1.datapad_field_id
        = field.datapad_field_id := by
  have hskip : (pyTruthyStr field.datapad_field_id && field.status == "synced" && !force)
      = false := by
    rw [hid]
    by_cases hs : field.status = "synced"
    · have hf := hnoskip hs
      simp [pyTruthyStr, hf]
    · simp [pyTruthyStr, hs]
  have hne : (rid == "") = false := by simp [hrid]
  have hcr' : (conflict_resolution == "overwrite") = false := by
    rcases hcr with rfl | rfl <;> decide
  rw [sync_field, hskip]
  simp only [Bool.false_eq_true, if_false]
  rw [hid]
  simp only [sync_call, pyTruthyStr, hne, Bool.not_false, if_true, Option.getD_some]
  rw [hupd]
  simp only []
  rw [hcr']
  simp only [Bool.false_eq_true, if_false]
  refine ⟨⟨_, rfl⟩, ?_, ?_, notfound_message_ne_empty msg, ?_, ?_⟩ <;> trivial

/-- Witness for C2: the error-state mapped field of the concrete store synced
with policy `skip` against the update-raises-NotFound oracle. -/
theorem sync_field_skip_policy_conflict_witness :
    (∃ p, (sync_field remote_gone 5 4 fieldW3 false "skip").2.2
        = [RemoteCall.updateField "r3" p])
    ∧ (sync_field remote_gone 5 4 fieldW3 false "skip").2.1.status
        = SyncStatus.conflict
    ∧ (sync_field remote_gone 5 4 fieldW3 false "skip").2.1.error_message
        = some ("DataPad field not found: " ++ "gone")
    ∧ ("DataPad field not found: " ++ "gone") ≠ ""
    ∧ (sync_field remote_gone 5 4 fieldW3 false "skip").1.status = "conflict"
    ∧ (sync_field remote_gone 5 4 fieldW3 false "skip").1.datapad_field_id
        = fieldW3.datapad_field_id :=
  sync_field_skip_policy_conflict remote_gone 5 4 fieldW3 false "r3" "gone" "skip"
    rfl (by decide) (fun h => absurd h (by decide)) (Or.inl rfl) (fun _ _ => rfl)

/-! ## C4: idempotence of re-sync on already-synced fields -/

/-- Counterexample to C4 as stated: a field with status `synced` and a
non-null `remoteFieldId` equal to the empty string is not skipped by
`sync(force=false)` — the truthiness test on `field.datapad_field_id` fails,
so a remote call is issued and the stored row changes. -/
theorem sync_field_synced_nonnull_not_skipped :
    field_empty_rid.status = "synced"
    ∧ field_empty_rid.datapad_field_id ≠ none
    ∧ (sync_field remote_ok 5 4 field_empty_rid false "skip").2.2 ≠ []
    ∧ (sync_field remote_ok 5 4 field_empty_rid false "skip").1 ≠ field_empty_rid := by
  exact ⟨rfl, by decide, by decide, by decide⟩

/-- C4 (amended): for every field with status `synced` and a non-null,
non-empty `remoteFieldId`, syncing with `force = false` leaves the stored row
entirely unchanged, issues zero remote calls, and yields a `SyncResult` with
status `synced` carrying the existing remote id. -/
theorem sync_field_synced_skip (remote : RemoteOracle) (now fuel : Nat)
    (field : FormField) (conflict_resolution : String) (rid : String)
    (hid : field.datapad_field_id = some rid) (hrid : rid ≠ "")
    (hst : field.status = "synced") :
    sync_field remote now fuel field false conflict_resolution
      = (field, { field_id := field.id, status := .synced,
                  datapad_field_id := some rid }, []) := by
  rw [sync_field, hid]
  simp [pyTruthyStr, hrid, hst]

/-- Witness for C4: the synced mapped field of the concrete store is skipped
untouched. -/
theorem sync_field_synced_skip_witness :
    sync_field remote_ok 5 4 fieldW1 false "skip"
      = (fieldW1, { field_id := fieldW1.id, status := .synced,
                    datapad_field_id := some "r1" }, []) :=
  sync_field_synced_skip remote_ok 5 4 fieldW1 "skip" "r1" rfl (by decide) rfl

/-! ## Error containment in the repaired orchestrator -/

/-- The sync loop produces exactly one result per selected field. -/
theorem sync_loop_length (remote : RemoteOracle) (now fuel : Nat) (force : Bool)
    (conflict_resolution : String) :
    ∀ (l : List FormField) (db : Database),
      (sync_loop remote now fuel force conflict_resolution l db).2.1.length = l.length
  | [], _ => rfl
  | f :: t, db => by
      simp only [sync_loop, List.length_cons]
      rw [sync_loop_length remote now fuel force conflict_resolution t _]

/-- Whatever the remote behaviour, a single-field sync always lands on one of
the statuses `synced`, `error` or `conflict`: every per-field failure is
captured in the returned result rather than escaping. -/
theorem sync_field_status_cases (remote : RemoteOracle) (now : Nat)
    (conflict_resolution : String) :
    ∀ (fl : Nat) (f : FormField) (frc : Bool),
      (sync_field remote now fl f frc conflict_resolution).2.1.status = SyncStatus.synced
      ∨ (sync_field remote now fl f frc conflict_resolution).2.1.status = SyncStatus.error
      ∨ (sync_field remote now fl f frc conflict_resolution).2.1.status = SyncStatus.conflict := by
  intro fl
  induction fl with
  | zero =>
      intro f frc
      rw [sync_field]
      by_cases hskip : (pyTruthyStr f.datapad_field_id && f.status == "synced" && !frc) = true
      · rw [if_pos hskip]
        exact Or.inl rfl
      · rw [if_neg hskip]
        simp only []
        cases hrc : remote (sync_call { f with status := "syncing", updated_at := now }) with
        | ok dp => exact Or.inl rfl
        | error exc =>
            cases exc with
            | notFound msg =>
                simp only []
                by_cases hov : (conflict_resolution == "overwrite") = true
                · rw [if_pos hov]
                  exact Or.inr (Or.inl rfl)
                · rw [if_neg hov]
                  exact Or.inr (Or.inr rfl)
            | apiError className msg => exact Or.inr (Or.inl rfl)
            | unexpected msg => exact Or.inr (Or.inl rfl)
  | succ n ih =>
      intro f frc
      rw [sync_field]
      by_cases hskip : (pyTruthyStr f.datapad_field_id && f.status == "synced" && !frc) = true
      · rw [if_pos hskip]
        exact Or.inl rfl
      · rw [if_neg hskip]
        simp only []
        cases hrc : remote (sync_call { f with status := "syncing", updated_at := now }) with
        | ok dp => exact Or.inl rfl
        | error exc =>
            cases exc with
            | notFound msg =>
                simp only []
                by_cases hov : (conflict_resolution == "overwrite") = true
                · rw [if_pos hov]
                  exact ih _ _
                · rw [if_neg hov]
                  exact Or.inr (Or.inr rfl)
            | apiError className msg => exact Or.inr (Or.inl rfl)
            | unexpected msg => exact Or.inr (Or.inl rfl)

/-- Intended behaviour: the repaired document-level sync raises (the
not-found error surfaced as HTTP 404) exactly when the document does not
exist; when the document exists the call always succeeds — for every remote behaviour — returning one result per
selected field, and each per-field outcome is one of `synced`/`error`/
`conflict`, so a failing field never aborts the batch. -/
theorem sync_document_error_containment (remote : RemoteOracle) (now fuel : Nat)
    (db : Database) (document_id : Nat) (field_ids : Option (List Nat))
    (force : Bool) (conflict_resolution : String) :
    ((∃ e, sync_document remote now fuel db document_id field_ids force conflict_resolution
        = Except.error e) ↔ document_id ∉ db.documents)
    ∧ (document_id ∈ db.documents →
        ∃ out, sync_document remote now fuel db document_id field_ids force conflict_resolution
            = Except.ok out
          ∧ out.2.1.results.length = (select_fields db document_id field_ids).length)
    ∧ (∀ (fl : Nat) (f : FormField) (frc : Bool),
        (sync_field remote now fl f frc conflict_resolution).2.1.status = SyncStatus.synced
        ∨ (sync_field remote now fl f frc conflict_resolution).2.1.status = SyncStatus.error
        ∨ (sync_field remote now fl f frc conflict_resolution).2.1.status = SyncStatus.conflict) := by
  refine ⟨?_, ?_, sync_field_status_cases remote now conflict_resolution⟩
  · by_cases hdoc : document_id ∈ db.documents
    · constructor
      · rintro ⟨e, he⟩
        rw [sync_document, if_pos hdoc] at he
        simp only [] at he
        split at he
        · exact Except.noConfusion he
        · exact Except.noConfusion he
      · intro h
        exact absurd hdoc h
    · constructor
      · intro _
        exact hdoc
      · intro _
        exact ⟨_, by rw [sync_document, if_neg hdoc]⟩
  · intro hdoc
    cases h : sync_document remote now fuel db document_id field_ids force conflict_resolution with
    | error e =>
        exfalso
        rw [sync_document, if_pos hdoc] at h
        simp only [] at h
        split at h
        · exact Except.noConfusion h
        · exact Except.noConfusion h
    | ok out =>
        refine ⟨out, rfl, ?_⟩
        rw [sync_document, if_pos hdoc] at h
        simp only [] at h
        split at h
        · rename_i hemp
          simp only [Except.ok.injEq] at h
          subst h
          rw [List.isEmpty_iff.mp hemp]
          rfl
        · simp only [Except.ok.injEq] at h
          subst h
          exact sync_loop_length remote now fuel force conflict_resolution _ db


/-- Concrete instance: the concrete store, with the document-present
hypothesis discharged concretely. -/
theorem sync_document_error_containment_witness :
    ((∃ e, sync_document remote_gone 5 4 dbW 7 none false "merge"
        = Except.error e) ↔ (7 : Nat) ∉ dbW.documents)
    ∧ ∃ out, sync_document remote_gone 5 4 dbW 7 none false "merge" = Except.ok out
        ∧ out.2.1.results.length = (select_fields dbW 7 none).length :=
  ⟨(sync_document_error_containment remote_gone 5 4 dbW 7 none false "merge").1,
   (sync_document_error_containment remote_gone 5 4 dbW 7 none false "merge").2.1
     (by decide)⟩

/-! ## C3, C5, C6, C8, C9: the entry points as staged never get that far -/

/-- C3 (code bug): as staged, `sync_document` raises `NameError` for the
unbound global `Form` (`sync_service.py:97`) on every call — document present
or absent, any oracle, any arguments — before the existence check; the route's
`except ValueError` does not catch it, so callers get HTTP 500, never the
claimed NotFound-iff-absent behaviour (which the repaired model satisfies:
`sync_document_error_containment`). -/
theorem sync_document_as_written_name_error (remote : RemoteOracle)
    (now fuel : Nat) (db : Database) (document_id : Nat)
    (field_ids : Option (List Nat)) (force : Bool) (conflict_resolution : String) :
    sync_document_as_written remote now fuel db document_id field_ids force
        conflict_resolution
      = Except.error (PyExc.nameError "Form") := rfl

/-- C5 (code bug): as staged, no sync invocation ever completes — the
`NameError` at `sync_service.py:97` precedes the loop and the aggregation at
lines 150-156 — so there is no completed invocation whose aggregate status the
claim could describe (the aggregation itself, in the repaired model, does
satisfy the claimed formula: `sync_document_overall_status`). -/
theorem sync_document_as_written_never_succeeds (remote : RemoteOracle)
    (now fuel : Nat) (db : Database) (document_id : Nat)
    (field_ids : Option (List Nat)) (force : Bool) (conflict_resolution : String) :
    succeeded (sync_document_as_written remote now fuel db document_id field_ids
        force conflict_resolution)
      = false := rfl

/-- C6 (code bug): as staged, even for an existing document with zero fields
the `No fields to sync` fast path (`sync_service.py:108-117`) is unreachable:
the call dies with `NameError` at line 97 instead of returning the claimed
synced/empty/all-zero response (which the repaired model returns:
`sync_document_empty_selection`). -/
theorem sync_document_as_written_empty_selection_unreachable
    (remote : RemoteOracle) (now fuel : Nat) :
    sync_document_as_written remote now fuel ⟨[9], []⟩ 9 none false "skip"
      = Except.error (PyExc.nameError "Form") := rfl

/-- C8 (code bug): as staged, `reset_sync_status` raises `NameError` for the
unbound global `FormField` (`sync_service.py:401`) on every call: it never
resets a row and never returns a count, contrary to its docstring and the
claim (which the repaired model satisfies: `reset_sync_status_all`). -/
theorem reset_sync_status_as_written_name_error (now : Nat) (db : Database)
    (document_id : Nat) (field_ids : Option (List Nat)) :
    reset_sync_status_as_written now db document_id field_ids
      = Except.error (PyExc.nameError "FormField") := rfl

/-- C9 (code bug): as staged, the `if field_ids:` selection at
`sync_service.py:102-104` never executes — every call, with `fieldIds = []`
or with none, raises the same `NameError` at line 97 first — so selecting all
fields is not a behaviour the program has (the repaired model does have it:
`sync_document_empty_field_ids`). -/
theorem sync_document_as_written_field_ids_unreachable (remote : RemoteOracle)
    (now fuel : Nat) (db : Database) (document_id : Nat) (force : Bool)
    (conflict_resolution : String) :
    sync_document_as_written remote now fuel db document_id (some []) force
        conflict_resolution
      = Except.error (PyExc.nameError "Form")
    ∧ sync_document_as_written remote now fuel db document_id (some []) force
        conflict_resolution
      = sync_document_as_written remote now fuel db document_id none force
          conflict_resolution :=
  ⟨rfl, rfl⟩

end GlxySync
